import Mathlib

/-!
Shallow embedding of the aerospace-rules service core (src/rules.rs,
src/bin/service.rs, src/lib.rs).

External process execution (the `aerospace` CLI and empty-workspace shell
commands) is the opaque command-execution boundary of the system; it is
modelled by an executor oracle `Exec` whose results range over all
possibilities.  Rust machine integers (`u32 window_id`) only ever undergo
order comparison here, so they are embedded as `Nat` with a `2^32` bound
enforced at parse time.  Fallible Rust code (`Result`) becomes `Except`;
a Rust panic becomes `none`.  To reason about the lock discipline of the
service handlers we additionally thread an event trace (lock
acquire/release and external-command events) through the embedded code,
in the exact order the Rust code performs those operations.
-/

namespace AerospaceRules

/-- WindowInfo from src/aerospace.rs: one window record. -/
structure WindowInfo where
  app_name : String
  window_id : Nat
  window_title : String
  workspace : String
deriving Repr, DecidableEq

/-- RuleType from src/config.rs. -/
inductive RuleType where
  | window (condition : String) (action : String)
  | emptyWorkspace (workspace : String) (command : String)
deriving Repr, DecidableEq

/-- Rule from src/config.rs. -/
structure Rule where
  name : String
  rule_type : RuleType
deriving Repr, DecidableEq

/-- Config from src/config.rs. -/
structure Config where
  rules : List Rule
deriving Repr, DecidableEq

/-- Fuel-driven worker for `rustSplit`: scan left to right, cutting at each
non-overlapping occurrence of the (non-empty) separator, accumulating the
current fragment in reverse.  Fuel equal to the input length suffices since
every step consumes at least one character. -/
def splitOnAuxChars (sep : List Char) : Nat → List Char → List Char →
    List (List Char)
  | _, [], acc => [acc.reverse]
  | 0, s, acc => [acc.reverse ++ s]
  | fuel + 1, c :: rest, acc =>
    if sep.isPrefixOf (c :: rest) then
      acc.reverse :: splitOnAuxChars sep fuel (List.drop (sep.length - 1) rest) []
    else splitOnAuxChars sep fuel rest (c :: acc)

/-- Rust `str::split(sep)` for a non-empty separator, collected into a list:
the fragments between consecutive non-overlapping occurrences of `sep`,
scanned left to right (`"a = b = c".split(" = ")` is `["a", "b", "c"]`,
`"ab".split(" = ")` is `["ab"]`).  The Rust code only ever splits on the
non-empty separators `" = "` and `" > "`. -/
def rustSplit (s sep : String) : List String :=
  if sep == "" then [s]
  else (splitOnAuxChars sep.toList s.toList.length s.toList []).map String.mk

/-- Rust `str::contains(pat)`: an empty pattern always matches; otherwise a
non-overlapping occurrence exists exactly when splitting yields more than
one part. -/
def containsSubstr (s pat : String) : Bool :=
  pat == "" || (rustSplit s pat).length != 1

/-- Rust `str::trim()`: strip leading and trailing whitespace (Rust trims
the Unicode White_Space set; all strings the program compares are ASCII,
where `Char.isWhitespace` agrees). -/
def strTrim (s : String) : String :=
  String.mk
    (((s.toList.dropWhile Char.isWhitespace).reverse.dropWhile
        Char.isWhitespace).reverse)

/-- Rust `str::trim_matches(c)`: strip every leading and trailing occurrence
of the character `c`. -/
def trimMatchesChar (c : Char) (s : String) : String :=
  String.mk (((s.toList.dropWhile (· == c)).reverse.dropWhile (· == c)).reverse)

/-- Decimal digit accumulator for `parseU32`; `none` on the first
non-digit. -/
def digitsToNatAux : List Char → Nat → Option Nat
  | [], acc => some acc
  | c :: rest, acc =>
    if c.isDigit then digitsToNatAux rest (acc * 10 + (c.toNat - 48)) else none

/-- Rust `str::parse::<u32>()`: optional leading `+`, then at least one
decimal digit and nothing else, value bounded by `2^32`. -/
def parseU32 (s : String) : Option Nat :=
  let ds :=
    match s.toList with
    | '+' :: rest => rest
    | cs => cs
  if ds.isEmpty then none
  else
    match digitsToNatAux ds 0 with
    | some n => if n < 4294967296 then some n else none
    | none => none

/-- Rust `str::starts_with(pre)`. -/
def strStartsWith (s pre : String) : Bool :=
  pre.toList.isPrefixOf s.toList

/-- The distinct error shapes produced by `matches_condition` in
src/rules.rs (each corresponds to one `format!` message there). -/
inductive CondErr where
  | invalidFormat (condition : String)
  | unknownField (field : String)
  | unknownNumericField (field : String)
  | parseNum (s : String)
  | unsupportedFormat (condition : String)
deriving Repr, DecidableEq

/-- The display text of a condition error, as produced by the `format!`
calls in src/rules.rs (the `parseNum` text is the standard library's
`ParseIntError` display). -/
def condErrMsg : CondErr → String
  | .invalidFormat c => "Invalid condition format: " ++ c
  | .unknownField f => "Unknown field in condition: " ++ f
  | .unknownNumericField f => "Unknown numeric field in condition: " ++ f
  | .parseNum _ => "invalid digit found in string"
  | .unsupportedFormat c => "Unsupported condition format: " ++ c

/-- matches_condition from src/rules.rs lines 83-123, translated clause by
clause. -/
def matches_condition (condition : String) (window : WindowInfo) :
    Except CondErr Bool :=
  if containsSubstr condition " = " then
    match rustSplit condition " = " with
    | [p0, p1] =>
      let field := strTrim p0
      let value := trimMatchesChar '"' (trimMatchesChar '\'' (strTrim p1))
      if field == "app-id" || field == "app-name" then
        Except.ok (window.app_name == value)
      else if field == "window-title" then
        Except.ok (containsSubstr window.window_title value)
      else if field == "workspace" then
        Except.ok (window.workspace == value)
      else Except.error (CondErr.unknownField field)
    | _ => Except.error (CondErr.invalidFormat condition)
  else if containsSubstr condition " > " then
    match rustSplit condition " > " with
    | [p0, p1] =>
      let field := strTrim p0
      match parseU32 (strTrim p1) with
      | none => Except.error (CondErr.parseNum p1)
      | some value =>
        if field == "window-width" then
          -- mock logic from the source: all windows are assumed "large"
          Except.ok (decide (value < 1200))
        else if field == "window-id" then
          Except.ok (decide (value < window.window_id))
        else Except.error (CondErr.unknownNumericField field)
    | _ => Except.error (CondErr.invalidFormat condition)
  else Except.error (CondErr.unsupportedFormat condition)

/-- One observable event of a service handler: lock operations on the shared
state and external command executions. -/
inductive Event where
  | readAcquire
  | readRelease
  | writeAcquire
  | writeRelease
  | externalExec (desc : String)
deriving Repr, DecidableEq

/-- The external command-execution boundary: outcomes of the `aerospace
move`, `aerospace fullscreen` and empty-workspace shell commands.  An
`Except.error` carries the failure text the Rust code would interpolate. -/
structure Exec where
  runMove : Nat → String → Except String Unit
  runFullscreen : Nat → Except String Unit
  runCommand : String → Except String Unit

/-- execute_action from src/rules.rs lines 125-176, with the spawned
`aerospace` invocations delegated to the executor oracle.  Returns the
result together with the external-execution events performed. -/
def execute_action (ex : Exec) (action : String) (window : WindowInfo) :
    Except String Unit × List Event :=
  if strStartsWith action "move-to-workspace " then
    let target := String.mk (action.toList.drop "move-to-workspace ".toList.length)
    (ex.runMove window.window_id target, [Event.externalExec "aerospace move"])
  else if action == "maximize" then
    (ex.runFullscreen window.window_id, [Event.externalExec "aerospace fullscreen"])
  else
    (Except.error ("Unknown action: " ++ action), [])

/-- execute_empty_workspace_command from src/rules.rs lines 178-213.  The
shlex tokenization, process spawn and exit-code handling all live behind the
command-execution boundary, so the whole call is delegated to the executor
oracle, which decides success or failure (and the failure text). -/
def execute_empty_workspace_command (ex : Exec) (command : String) :
    Except String Unit × List Event :=
  (ex.runCommand command, [Event.externalExec "empty-workspace command"])

/-- The outcome string pushed for a successfully applied window rule
(src/rules.rs lines 47-50). -/
def appliedOutcome (name : String) (window : WindowInfo) (action : String) :
    String :=
  "Applied '" ++ name ++ "' to " ++ window.app_name ++ " (ID: " ++
    toString window.window_id ++ "): " ++ action

/-- The inner `for window in &focused_workspace_windows` loop of
evaluate_rules_for_workspace (src/rules.rs lines 32-52).  The `?` on
`matches_condition` aborts at the first malformed condition; a failed action
is logged and skipped (no outcome recorded). -/
def window_rule_loop (ex : Exec) (name condition action : String) :
    List WindowInfo → Except CondErr (List String) × List Event
  | [] => (Except.ok [], [])
  | window :: rest =>
    match matches_condition condition window with
    | Except.error e => (Except.error e, [])
    | Except.ok matched =>
      if matched then
        let (res, evs) := execute_action ex action window
        match window_rule_loop ex name condition action rest with
        | (Except.error e, tailEvs) => (Except.error e, evs ++ tailEvs)
        | (Except.ok outs, tailEvs) =>
          match res with
          | Except.error _ => (Except.ok outs, evs ++ tailEvs)
          | Except.ok _ =>
            (Except.ok (appliedOutcome name window action :: outs),
             evs ++ tailEvs)
      else window_rule_loop ex name condition action rest

/-- The `for rule in &config.rules` loop of evaluate_rules_for_workspace
(src/rules.rs lines 25-78).  A condition error propagates out of the whole
loop (the `?` operator); an empty-workspace command records one outcome on
success and on failure alike. -/
def rules_loop (ex : Exec) (workspace : String) (fw : List WindowInfo) :
    List Rule → Except CondErr (List String) × List Event
  | [] => (Except.ok [], [])
  | rule :: rest =>
    match rule.rule_type with
    | RuleType.window condition action =>
      if fw.isEmpty then rules_loop ex workspace fw rest
      else
        match window_rule_loop ex rule.name condition action fw with
        | (Except.error e, evs) => (Except.error e, evs)
        | (Except.ok outs, evs) =>
          match rules_loop ex workspace fw rest with
          | (Except.error e, tailEvs) => (Except.error e, evs ++ tailEvs)
          | (Except.ok tailOuts, tailEvs) =>
            (Except.ok (outs ++ tailOuts), evs ++ tailEvs)
    | RuleType.emptyWorkspace rule_workspace command =>
      if fw.isEmpty && rule_workspace == workspace then
        let (res, evs) := execute_empty_workspace_command ex command
        let outcome :=
          match res with
          | Except.error e =>
            "Failed to execute empty workspace command '" ++ rule.name ++
              "': " ++ e
          | Except.ok _ =>
            "Executed empty workspace rule '" ++ rule.name ++ "': " ++ command
        match rules_loop ex workspace fw rest with
        | (Except.error e, tailEvs) => (Except.error e, evs ++ tailEvs)
        | (Except.ok tailOuts, tailEvs) =>
          (Except.ok (outcome :: tailOuts), evs ++ tailEvs)
      else rules_loop ex workspace fw rest

/-- evaluate_rules_for_workspace from src/rules.rs lines 8-81.  The
`_windows` argument is unused in the source and kept for fidelity. -/
def evaluate_rules_for_workspace (ex : Exec) (workspace : String)
    (_windows : List WindowInfo) (focused_workspace_windows : List WindowInfo)
    (config : Config) : Except CondErr (List String) :=
  (rules_loop ex workspace focused_workspace_windows config.rules).fst

/-- Failure of an external `aerospace` query (src/aerospace.rs). -/
structure GatewayError where
  msg : String
deriving Repr, DecidableEq

/-- ServiceState from src/lib.rs. -/
structure ServiceState where
  windows : List WindowInfo
  config : Option Config
  config_path : Option String
deriving Repr, DecidableEq

/-- Request from src/lib.rs. -/
inductive Request where
  | getWindows
  | getConfig
  | reload
  | evaluateRules (workspace : String)
deriving Repr, DecidableEq

/-- Response from src/lib.rs. -/
inductive Response where
  | windows (ws : List WindowInfo)
  | config (c : Config)
  | success
  | error (msg : String)
  | rulesEvaluated (actions_performed : List String)
deriving Repr, DecidableEq

/-- refresh_state from src/bin/service.rs lines 116-140.  The result of the
external `aerospace::list_windows()` query and the config loader (file read
plus TOML parse, a pure function of the path for one refresh) are supplied
by the environment.  On gateway failure the function returns early with the
state untouched; on success it reads `config_path` under the read lock,
loads the config, and replaces `windows` and `config` under the write
lock. -/
def refresh_state (list_windows : Except GatewayError (List WindowInfo))
    (load : Option String → Option Config) (state : ServiceState) :
    ServiceState × List Event :=
  match list_windows with
  | Except.error _ => (state, [Event.externalExec "aerospace list-windows"])
  | Except.ok windows =>
    let config := load state.config_path
    ({ state with windows := windows, config := config },
     [Event.externalExec "aerospace list-windows", Event.readAcquire,
      Event.readRelease, Event.writeAcquire, Event.writeRelease])

/-- refresh_config_only from src/bin/service.rs lines 142-160: reload the
config from the stored path and replace only the `config` field under the
write lock. -/
def refresh_config_only (load : Option String → Option Config)
    (state : ServiceState) : ServiceState × List Event :=
  ({ state with config := load state.config_path },
   [Event.readAcquire, Event.readRelease, Event.writeAcquire,
    Event.writeRelease])

/-- The request dispatch of handle_client from src/bin/service.rs lines
40-75, for one decoded request.  The environment supplies the executor
oracle, the workspace-scoped window query, the full window query and the
config loader.  The returned response is `none` exactly when the Rust code
panics: the `EvaluateRules` arm calls `.expect("foo")` on the fresh
`list_windows_in_workspace` query while holding the read lock, so a gateway
error there panics the handler task and no response is ever written.  The
event trace records lock operations and external executions in source
order. -/
def handle_request (ex : Exec)
    (list_windows_in_workspace : String → Except GatewayError (List WindowInfo))
    (list_windows : Except GatewayError (List WindowInfo))
    (load : Option String → Option Config)
    (state : ServiceState) :
    Request → Option Response × ServiceState × List Event
  | Request.getWindows =>
    (some (Response.windows state.windows), state,
     [Event.readAcquire, Event.readRelease])
  | Request.getConfig =>
    match state.config with
    | some c =>
      (some (Response.config c), state, [Event.readAcquire, Event.readRelease])
    | none =>
      (some (Response.error "No config loaded"), state,
       [Event.readAcquire, Event.readRelease])
  | Request.reload =>
    match refresh_state list_windows load state with
    | (s2, evs) => (some Response.success, s2, evs)
  | Request.evaluateRules workspace =>
    match state.config with
    | none =>
      (some (Response.error "No config loaded"), state,
       [Event.readAcquire, Event.readRelease])
    | some config =>
      match list_windows_in_workspace workspace with
      | Except.error _ =>
        -- .expect("foo") panics: the read lock is still held, no
        -- response is produced
        (none, state,
         [Event.readAcquire,
          Event.externalExec "aerospace list-windows --workspace"])
      | Except.ok fw =>
        match rules_loop ex workspace fw config.rules with
        | (res, evs) =>
          let response :=
            match res with
            | Except.ok actions => Response.rulesEvaluated actions
            | Except.error e =>
              Response.error ("Rule evaluation failed: " ++ condErrMsg e)
          (some response, state,
           Event.readAcquire ::
             Event.externalExec "aerospace list-windows --workspace" ::
             evs ++ [Event.readRelease])

/-- True when the trace contains no external command execution. -/
def noExternal (tr : List Event) : Bool :=
  tr.all fun ev =>
    match ev with
    | Event.externalExec _ => false
    | _ => true

/-- True when the trace consists solely of external command executions. -/
def onlyExternal (tr : List Event) : Bool :=
  tr.all fun ev =>
    match ev with
    | Event.externalExec _ => true
    | _ => false

/-- True when some external execution in the trace happens while the read
lock is held (`depth` counts currently held read locks). -/
def externalWhileReadLocked : List Event → Nat → Bool
  | [], _ => false
  | Event.readAcquire :: tr, depth => externalWhileReadLocked tr (depth + 1)
  | Event.readRelease :: tr, depth => externalWhileReadLocked tr (depth - 1)
  | Event.externalExec _ :: tr, depth =>
    decide (0 < depth) || externalWhileReadLocked tr depth
  | _ :: tr, depth => externalWhileReadLocked tr depth

/-- True when every external execution in the trace happens while the read
lock is held. -/
def allExternalReadLocked : List Event → Nat → Bool
  | [], _ => true
  | Event.readAcquire :: tr, depth => allExternalReadLocked tr (depth + 1)
  | Event.readRelease :: tr, depth => allExternalReadLocked tr (depth - 1)
  | Event.externalExec _ :: tr, depth =>
    decide (0 < depth) && allExternalReadLocked tr depth
  | _ :: tr, depth => allExternalReadLocked tr depth

/-- Decidable well-formedness of the conditions a rule will evaluate against
a given window list: every window rule's condition evaluates without error
on every window. -/
def rule_conditions_ok (fw : List WindowInfo) (r : Rule) : Bool :=
  match r.rule_type with
  | RuleType.window condition _ =>
    fw.all fun w => (matches_condition condition w).isOk
  | RuleType.emptyWorkspace _ _ => true

/-! Concrete fixtures used by witnesses and counterexamples. -/

/-- An executor whose external commands all succeed. -/
def exOk : Exec :=
  ⟨fun _ _ => Except.ok (), fun _ => Except.ok (), fun _ => Except.ok ()⟩

/-- A sample window (the Ghostty scenario of the spec). -/
def wGhost : WindowInfo := ⟨"Ghostty", 42, "some title", "1"⟩

/-- C6: if the list-all-windows gateway query fails, `refresh_state` returns
the service state entirely untouched — windows, rules and config path are
exactly what they were before the refresh. -/
theorem c6_full_refresh_failure_preserves_state (e : GatewayError)
    (load : Option String → Option Config) (state : ServiceState) :
    (refresh_state (Except.error e) load state).1 = state := rfl

/-- C7: `refresh_config_only` replaces only the config field: the windows
sequence and the stored config path are unchanged for every prior state and
every outcome of the reload. -/
theorem c7_config_only_refresh_frame (load : Option String → Option Config)
    (state : ServiceState) :
    (refresh_config_only load state).1.windows = state.windows
    ∧ (refresh_config_only load state).1.config_path = state.config_path
    ∧ (refresh_config_only load state).1.config = load state.config_path :=
  ⟨rfl, rfl, rfl⟩

/-- C2: at the failing input (an EvaluateRules request with a config loaded
while the workspace-scoped window query fails), the handler produces no
response at all: the `.expect("foo")` in the EvaluateRules arm panics the
handler task instead of sending the Error response the spec promises. -/
theorem c2_gateway_error_panics_without_response :
    (handle_request exOk (fun _ => Except.error ⟨"aerospace list-windows failed"⟩)
        (Except.ok []) (fun _ => none) ⟨[], some ⟨[]⟩, none⟩
        (Request.evaluateRules "1")).1 = none := rfl

/-- C8 counterexample: with no config loaded, the GetConfig response message
is "No config loaded" (capital N), not the "no config loaded" the claim
states. -/
theorem c8_response_message_counterexample :
    (handle_request exOk (fun _ => Except.ok []) (Except.ok []) (fun _ => none)
        ⟨[], none, none⟩ Request.getConfig).1
      ≠ some (Response.error "no config loaded") := by decide

/-- C8 (amended): a GetConfig request dispatched while no config has ever
been successfully loaded yields exactly `Error("No config loaded")` — in
particular never a Config response carrying a default or empty rule set. -/
theorem c8_get_config_without_config_errors (ex : Exec)
    (lww : String → Except GatewayError (List WindowInfo))
    (lw : Except GatewayError (List WindowInfo))
    (load : Option String → Option Config) (state : ServiceState)
    (h : state.config = none) :
    (handle_request ex lww lw load state Request.getConfig).1
      = some (Response.error "No config loaded") := by
  simp [handle_request, h]

/-- C8 witness: the amended theorem applied to a concrete empty state. -/
theorem c8_witness :
    (handle_request exOk (fun _ => Except.ok []) (Except.ok []) (fun _ => none)
        ⟨[], none, none⟩ Request.getConfig).1
      = some (Response.error "No config loaded") :=
  c8_get_config_without_config_errors exOk _ _ _ ⟨[], none, none⟩ rfl

/-- C10: an equality-form condition whose value itself contains the
separator " = " splits into more than two parts and is rejected as a
malformed condition for every window — the quotes around the value do not
protect the separator. -/
theorem c10_separator_in_value_rejected (condition : String)
    (window : WindowInfo) (h : 3 ≤ (rustSplit condition " = ").length) :
    matches_condition condition window
      = Except.error (CondErr.invalidFormat condition) := by
  have hlen : (rustSplit condition " = ").length ≠ 1 := by omega
  have hcont : containsSubstr condition " = " = true := by
    simp [containsSubstr, hlen]
  rcases hsp : rustSplit condition " = " with _ | ⟨a, tl⟩
  · rw [hsp] at h; simp at h
  rcases tl with _ | ⟨b, tl2⟩
  · rw [hsp] at h; simp at h
  rcases tl2 with _ | ⟨c, tl3⟩
  · rw [hsp] at h; simp at h
  · simp [matches_condition, hcont, hsp]

/-- C10 witness: the condition "window-title = 'a = b'" splits into three
parts and is rejected for the sample window. -/
theorem c10_witness :
    3 ≤ (rustSplit "window-title = 'a = b'" " = ").length
    ∧ matches_condition "window-title = 'a = b'" wGhost
        = Except.error (CondErr.invalidFormat "window-title = 'a = b'") :=
  ⟨by decide, c10_separator_in_value_rejected "window-title = 'a = b'" wGhost
    (by decide)⟩

/-- If every window in the list satisfies a well-formed condition check, the
inner window loop cannot abort: it yields some outcome list. -/
theorem window_rule_loop_ok (ex : Exec) (name condition action : String)
    (fw : List WindowInfo)
    (h : (fw.all fun w => (matches_condition condition w).isOk) = true) :
    ∃ outs evs,
      window_rule_loop ex name condition action fw = (Except.ok outs, evs) := by
  induction fw with
  | nil => exact ⟨[], [], rfl⟩
  | cons w ws ih =>
    rw [List.all_cons, Bool.and_eq_true] at h
    obtain ⟨h1, h2⟩ := h
    obtain ⟨outs, evs, hrec⟩ := ih h2
    rcases hm : matches_condition condition w with e | b
    · rw [hm] at h1; simp [Except.isOk, Except.toBool] at h1
    · cases b with
      | false => exact ⟨outs, evs, by simp [window_rule_loop, hm, hrec]⟩
      | true =>
        rcases hx : execute_action ex action w with ⟨res, aevs⟩
        rcases res with err | u
        · exact ⟨outs, aevs ++ evs,
            by simp [window_rule_loop, hm, hx, hrec]⟩
        · exact ⟨appliedOutcome name w action :: outs, aevs ++ evs,
            by simp [window_rule_loop, hm, hx, hrec]⟩

/-- If every window rule's condition in the list is well-formed on every
supplied window, the rule loop cannot abort. -/
theorem rules_loop_ok (ex : Exec) (workspace : String) (fw : List WindowInfo)
    (rules : List Rule) (h : rules.all (rule_conditions_ok fw) = true) :
    ∃ outs evs, rules_loop ex workspace fw rules = (Except.ok outs, evs) := by
  induction rules with
  | nil => exact ⟨[], [], rfl⟩
  | cons r rs ih =>
    rw [List.all_cons, Bool.and_eq_true] at h
    obtain ⟨h1, h2⟩ := h
    obtain ⟨outs, evs, hrec⟩ := ih h2
    rcases hrt : r.rule_type with ⟨condition, action⟩ | ⟨rw2, cmd⟩
    · cases hfw : fw.isEmpty
      · have hall : (fw.all fun w => (matches_condition condition w).isOk)
            = true := by
          simpa [rule_conditions_ok, hrt] using h1
        obtain ⟨wouts, wevs, hw⟩ :=
          window_rule_loop_ok ex r.name condition action fw hall
        exact ⟨wouts ++ outs, wevs ++ evs,
          by simp [rules_loop, hrt, hfw, hw, hrec]⟩
      · exact ⟨outs, evs, by simp [rules_loop, hrt, hfw, hrec]⟩
    · cases hfire : fw.isEmpty && rw2 == workspace
      · exact ⟨outs, evs, by simp [rules_loop, hrt, hfire, hrec]⟩
      · rcases hres : ex.runCommand cmd with e | u
        · exact
            ⟨("Failed to execute empty workspace command '" ++ r.name ++
                "': " ++ e) :: outs,
             Event.externalExec "empty-workspace command" :: evs,
             by simp [rules_loop, hrt, hfire,
                  execute_empty_workspace_command, hres, hrec]⟩
        · exact
            ⟨("Executed empty workspace rule '" ++ r.name ++ "': " ++ cmd)
                :: outs,
             Event.externalExec "empty-workspace command" :: evs,
             by simp [rules_loop, hrt, hfire,
                  execute_empty_workspace_command, hres, hrec]⟩

/-- C1 counterexample: a single malformed condition makes the whole
evaluation fail — `evaluate_rules_for_workspace` returns an error rather
than a sequence of outcomes, refuting "never fails as a whole". -/
theorem c1_evaluation_fails_counterexample :
    evaluate_rules_for_workspace exOk "1" [] [wGhost]
        ⟨[⟨"bad rule", RuleType.window "bogus" "maximize"⟩]⟩
      = Except.error (CondErr.unsupportedFormat "bogus") := rfl

/-- C1 (amended): evaluation returns a sequence of outcomes whenever every
window rule's condition is well-formed on every supplied window (action
failures never abort it, as the executor is arbitrary); but a condition with
an unknown field, a malformed split, or an unparsable number propagates out
of `evaluate_rules_for_workspace` as an error, aborting the remaining
windows and rules, and the caller maps it to an Error response. -/
theorem c1_evaluate_ok_of_wellformed_conditions (ex : Exec)
    (workspace : String) (windows fw : List WindowInfo) (config : Config)
    (h : config.rules.all (rule_conditions_ok fw) = true) :
    ∃ outs,
      evaluate_rules_for_workspace ex workspace windows fw config
        = Except.ok outs := by
  obtain ⟨outs, evs, hr⟩ := rules_loop_ok ex workspace fw config.rules h
  exact ⟨outs, by simp [evaluate_rules_for_workspace, hr]⟩

/-- C1 witness: a concrete well-formed rule set evaluates to an outcome
list. -/
theorem c1_witness :
    (([⟨"max ghostty", RuleType.window "app-name = 'Ghostty'" "maximize"⟩] :
        List Rule).all (rule_conditions_ok [wGhost]) = true)
    ∧ ∃ outs,
        evaluate_rules_for_workspace exOk "1" [] [wGhost]
          ⟨[⟨"max ghostty", RuleType.window "app-name = 'Ghostty'" "maximize"⟩]⟩
          = Except.ok outs :=
  ⟨by decide,
   c1_evaluate_ok_of_wellformed_conditions exOk "1" [] [wGhost]
     ⟨[⟨"max ghostty", RuleType.window "app-name = 'Ghostty'" "maximize"⟩]⟩
     (by decide)⟩

/-- C4: for a condition that splits into exactly two parts on " = ", the
fields app-id and app-name compare the window's application name for exact
equality against the quote-stripped value, window-title tests substring
containment, and workspace compares the window's tagged workspace id for
exact equality. -/
theorem c4_equality_condition_semantics (window : WindowInfo)
    (condition p0 p1 : String)
    (h : rustSplit condition " = " = [p0, p1]) :
    (strTrim p0 = "app-id" ∨ strTrim p0 = "app-name" →
      matches_condition condition window
        = Except.ok (window.app_name ==
            trimMatchesChar '"' (trimMatchesChar '\'' (strTrim p1))))
    ∧ (strTrim p0 = "window-title" →
      matches_condition condition window
        = Except.ok (containsSubstr window.window_title
            (trimMatchesChar '"' (trimMatchesChar '\'' (strTrim p1)))))
    ∧ (strTrim p0 = "workspace" →
      matches_condition condition window
        = Except.ok (window.workspace ==
            trimMatchesChar '"' (trimMatchesChar '\'' (strTrim p1)))) := by
  have hcont : containsSubstr condition " = " = true := by
    simp [containsSubstr, h]
  refine ⟨?_, ?_, ?_⟩
  · rintro (hf | hf) <;> simp [matches_condition, hcont, h, hf]
  · intro hf; simp [matches_condition, hcont, h, hf]
  · intro hf; simp [matches_condition, hcont, h, hf]

/-- C4 witness: the three equality fields evaluated on the sample window,
with single quotes stripped from the value. -/
theorem c4_witness :
    matches_condition "app-name = 'Ghostty'" wGhost = Except.ok true
    ∧ matches_condition "app-name = 'Ghost'" wGhost = Except.ok false
    ∧ matches_condition "window-title = 'title'" wGhost = Except.ok true
    ∧ matches_condition "workspace = '1'" wGhost = Except.ok true := by
  refine ⟨?_, ?_, ?_, ?_⟩
  · exact (c4_equality_condition_semantics wGhost "app-name = 'Ghostty'"
      "app-name" "'Ghostty'" (by decide)).1 (Or.inr rfl)
  · exact (c4_equality_condition_semantics wGhost "app-name = 'Ghost'"
      "app-name" "'Ghost'" (by decide)).1 (Or.inr rfl)
  · exact (c4_equality_condition_semantics wGhost "window-title = 'title'"
      "window-title" "'title'" (by decide)).2.1 rfl
  · exact (c4_equality_condition_semantics wGhost "workspace = '1'"
      "workspace" "'1'" (by decide)).2.2 rfl

/-- C5: for a condition splitting into exactly two parts on " > " (and not
containing " = ") whose right part parses as a number n, window-id matches
exactly when the window's id is strictly greater than n, and window-width
evaluates to true exactly when n < 1200, independently of the window. -/
theorem c5_numeric_condition_semantics (window : WindowInfo)
    (condition p0 p1 : String) (n : Nat)
    (hne : containsSubstr condition " = " = false)
    (h : rustSplit condition " > " = [p0, p1])
    (hn : parseU32 (strTrim p1) = some n) :
    (strTrim p0 = "window-id" →
      matches_condition condition window
        = Except.ok (decide (n < window.window_id)))
    ∧ (strTrim p0 = "window-width" →
      matches_condition condition window = Except.ok (decide (n < 1200))) := by
  have hcont : containsSubstr condition " > " = true := by
    simp [containsSubstr, h]
  constructor
  · intro hf; simp [matches_condition, hne, hcont, h, hn, hf]
  · intro hf; simp [matches_condition, hne, hcont, h, hn, hf]

/-- C5 witness: "window-id > 5" does not match id 5, matches id 6;
"window-width > 100" is true and "window-width > 1300" is false on the same
window. -/
theorem c5_witness :
    matches_condition "window-id > 5" ⟨"A", 5, "t", "1"⟩ = Except.ok false
    ∧ matches_condition "window-id > 5" ⟨"A", 6, "t", "1"⟩ = Except.ok true
    ∧ matches_condition "window-width > 100" wGhost = Except.ok true
    ∧ matches_condition "window-width > 1300" wGhost = Except.ok false := by
  refine ⟨?_, ?_, ?_, ?_⟩
  · exact (c5_numeric_condition_semantics ⟨"A", 5, "t", "1"⟩ "window-id > 5"
      "window-id" "5" 5 (by decide) (by decide) (by decide)).1 rfl
  · exact (c5_numeric_condition_semantics ⟨"A", 6, "t", "1"⟩ "window-id > 5"
      "window-id" "5" 5 (by decide) (by decide) (by decide)).1 rfl
  · exact (c5_numeric_condition_semantics wGhost "window-width > 100"
      "window-width" "100" 100 (by decide) (by decide) (by decide)).2 rfl
  · exact (c5_numeric_condition_semantics wGhost "window-width > 1300"
      "window-width" "1300" 1300 (by decide) (by decide) (by decide)).2 rfl

/-- The outcomes produced by the rule loop on an empty window snapshot:
window rules are skipped, and each empty-workspace rule whose workspace
matches contributes exactly one outcome, success or failure alike. -/
def emptyOutcomes (ex : Exec) (workspace : String) : List Rule → List String
  | [] => []
  | r :: rs =>
    match r.rule_type with
    | RuleType.window _ _ => emptyOutcomes ex workspace rs
    | RuleType.emptyWorkspace rw2 cmd =>
      if rw2 == workspace then
        (match ex.runCommand cmd with
         | Except.error e =>
           "Failed to execute empty workspace command '" ++ r.name ++ "': " ++ e
         | Except.ok _ =>
           "Executed empty workspace rule '" ++ r.name ++ "': " ++ cmd)
          :: emptyOutcomes ex workspace rs
      else emptyOutcomes ex workspace rs

/-- On an empty snapshot the rule loop never fails and produces exactly the
`emptyOutcomes`. -/
theorem rules_loop_empty_fw (ex : Exec) (workspace : String)
    (rules : List Rule) :
    (rules_loop ex workspace [] rules).1
      = Except.ok (emptyOutcomes ex workspace rules) := by
  induction rules with
  | nil => rfl
  | cons r rs ih =>
    rcases hp : rules_loop ex workspace [] rs with ⟨res, evs⟩
    rw [hp] at ih
    simp only [] at ih
    rcases hrt : r.rule_type with ⟨condition, action⟩ | ⟨rw2, cmd⟩
    · simp [rules_loop, emptyOutcomes, hrt, hp, ih]
    · cases hw : rw2 == workspace
      · simp [rules_loop, emptyOutcomes, hrt, hw, hp, ih]
      · rcases hres : ex.runCommand cmd with e | u <;>
          simp [rules_loop, emptyOutcomes, hrt, hw,
            execute_empty_workspace_command, hres, hp, ih]

/-- `emptyOutcomes` distributes over rule-list concatenation. -/
theorem emptyOutcomes_append (ex : Exec) (workspace : String)
    (l1 l2 : List Rule) :
    emptyOutcomes ex workspace (l1 ++ l2)
      = emptyOutcomes ex workspace l1 ++ emptyOutcomes ex workspace l2 := by
  induction l1 with
  | nil => simp [emptyOutcomes]
  | cons r rs ih =>
    rcases hrt : r.rule_type with ⟨condition, action⟩ | ⟨rw2, cmd⟩
    · simp [emptyOutcomes, hrt, ih]
    · cases hw : rw2 == workspace <;>
        simp [emptyOutcomes, hrt, hw, ih]

/-- Inserting an empty-workspace rule whose firing condition is false leaves
the rule loop's entire behavior (result and events) unchanged, at any
position in the rule list. -/
theorem rules_loop_insert_inert (ex : Exec)
    (workspace name rule_workspace command : String) (fw : List WindowInfo)
    (h : (fw.isEmpty && rule_workspace == workspace) = false)
    (pre post : List Rule) :
    rules_loop ex workspace fw
        (pre ++ ⟨name, RuleType.emptyWorkspace rule_workspace command⟩ :: post)
      = rules_loop ex workspace fw (pre ++ post) := by
  induction pre with
  | nil => simp [rules_loop, h]
  | cons p pre2 ih =>
    rcases hrt : p.rule_type with ⟨condition, action⟩ | ⟨rw2, cmd⟩
    · cases hfw : fw.isEmpty
      · rcases hw : window_rule_loop ex p.name condition action fw
          with ⟨res, evs⟩
        rcases res with e | outs
        · simp [rules_loop, hrt, hfw, hw]
        · simp [rules_loop, hrt, hfw, hw, ih]
      · simp [rules_loop, hrt, hfw, ih]
    · cases hfire : fw.isEmpty && rw2 == workspace
      · simp [rules_loop, hrt, hfire, ih]
      · rcases hres : ex.runCommand cmd with e | u <;>
          simp [rules_loop, hrt, hfire,
            execute_empty_workspace_command, hres, ih]

/-- C3: at any position in any rule set, an EmptyWorkspaceRule fires if and
only if the supplied snapshot is empty and its workspace id equals the
evaluated workspace by exact string comparison; when it fires it contributes
exactly one outcome string, whether the command succeeds or fails, and when
it does not fire the evaluation is untouched by its presence. -/
theorem c3_empty_workspace_rule_fires_iff (ex : Exec)
    (workspace name rule_workspace command : String) (fw : List WindowInfo)
    (pre post : List Rule) :
    (fw = [] ∧ rule_workspace = workspace →
      ∃ outsPre out outsPost,
        (rules_loop ex workspace fw
            (pre ++ ⟨name, RuleType.emptyWorkspace rule_workspace command⟩
              :: post)).1
          = Except.ok (outsPre ++ out :: outsPost)
        ∧ (rules_loop ex workspace fw (pre ++ post)).1
            = Except.ok (outsPre ++ outsPost))
    ∧ (¬(fw = [] ∧ rule_workspace = workspace) →
      rules_loop ex workspace fw
          (pre ++ ⟨name, RuleType.emptyWorkspace rule_workspace command⟩
            :: post)
        = rules_loop ex workspace fw (pre ++ post)) := by
  constructor
  · rintro ⟨rfl, rfl⟩
    refine ⟨emptyOutcomes ex rule_workspace pre,
      (match ex.runCommand command with
       | Except.error e =>
         "Failed to execute empty workspace command '" ++ name ++ "': " ++ e
       | Except.ok _ =>
         "Executed empty workspace rule '" ++ name ++ "': " ++ command),
      emptyOutcomes ex rule_workspace post, ?_, ?_⟩
    · rw [rules_loop_empty_fw, emptyOutcomes_append]
      rcases hres : ex.runCommand command with e | u <;>
        simp [emptyOutcomes, hres]
    · rw [rules_loop_empty_fw, emptyOutcomes_append]
  · intro hn
    refine rules_loop_insert_inert ex workspace name rule_workspace command
      fw ?_ pre post
    cases fw with
    | nil =>
      have : rule_workspace ≠ workspace := by
        intro he; exact hn ⟨rfl, he⟩
      simp [List.isEmpty, this]
    | cons w ws => simp [List.isEmpty]

/-- C3 witness: the rule fires exactly once on an empty workspace "99" and
is inert on a non-empty snapshot of a different workspace. -/
theorem c3_witness :
    (∃ outsPre out outsPost,
      (rules_loop exOk "99" []
          ([] ++ ⟨"term", RuleType.emptyWorkspace "99" "open -a Terminal"⟩
            :: [])).1
        = Except.ok (outsPre ++ out :: outsPost)
      ∧ (rules_loop exOk "99" [] ([] ++ [])).1
          = Except.ok (outsPre ++ outsPost))
    ∧ rules_loop exOk "1" [wGhost]
        ([] ++ ⟨"term", RuleType.emptyWorkspace "2" "open -a Terminal"⟩ :: [])
      = rules_loop exOk "1" [wGhost] ([] ++ []) :=
  ⟨(c3_empty_workspace_rule_fires_iff exOk "99" "term" "99" "open -a Terminal"
      [] [] []).1 ⟨rfl, rfl⟩,
   (c3_empty_workspace_rule_fires_iff exOk "1" "term" "2" "open -a Terminal"
      [wGhost] [] []).2 (by simp)⟩

/-- Every event emitted by `execute_action` is an external execution. -/
theorem execute_action_events_external (ex : Exec) (action : String)
    (w : WindowInfo) : onlyExternal (execute_action ex action w).2 = true := by
  cases h1 : strStartsWith action "move-to-workspace " <;>
    cases h2 : action == "maximize" <;>
      simp [execute_action, h1, h2, onlyExternal]

/-- Every event emitted by the window loop is an external execution. -/
theorem window_rule_loop_events_external (ex : Exec)
    (name condition action : String) (fw : List WindowInfo) :
    onlyExternal (window_rule_loop ex name condition action fw).2 = true := by
  induction fw with
  | nil => rfl
  | cons w ws ih =>
    rcases hm : matches_condition condition w with e | b
    · simp [window_rule_loop, hm, onlyExternal]
    · cases b with
      | false => simpa [window_rule_loop, hm] using ih
      | true =>
        rcases hx : execute_action ex action w with ⟨res, aevs⟩
        have ha : onlyExternal aevs = true := by
          have := execute_action_events_external ex action w
          rw [hx] at this; exact this
        rcases hp : window_rule_loop ex name condition action ws
          with ⟨tres, tevs⟩
        have ht : onlyExternal tevs = true := by
          rw [hp] at ih; exact ih
        rcases tres with e | outs
        · simp [window_rule_loop, hm, hx, hp, onlyExternal,
            List.all_append] at ha ht ⊢
          exact ⟨ha, ht⟩
        · rcases res with err | u <;>
            · simp [window_rule_loop, hm, hx, hp, onlyExternal,
                List.all_append] at ha ht ⊢
              exact ⟨ha, ht⟩

/-- Every event emitted by the rule loop is an external execution. -/
theorem rules_loop_events_external (ex : Exec) (workspace : String)
    (fw : List WindowInfo) (rules : List Rule) :
    onlyExternal (rules_loop ex workspace fw rules).2 = true := by
  induction rules with
  | nil => rfl
  | cons r rs ih =>
    rcases hp : rules_loop ex workspace fw rs with ⟨tres, tevs⟩
    have ht : onlyExternal tevs = true := by rw [hp] at ih; exact ih
    rcases hrt : r.rule_type with ⟨condition, action⟩ | ⟨rw2, cmd⟩
    · cases hfw : fw.isEmpty
      · rcases hw : window_rule_loop ex r.name condition action fw
          with ⟨wres, wevs⟩
        have hwe : onlyExternal wevs = true := by
          have := window_rule_loop_events_external ex r.name condition
            action fw
          rw [hw] at this; exact this
        rcases wres with e | outs
        · simpa [rules_loop, hrt, hfw, hw] using hwe
        · rcases tres with e | touts <;>
            · simp [rules_loop, hrt, hfw, hw, hp, onlyExternal,
                List.all_append] at hwe ht ⊢
              exact ⟨hwe, ht⟩
      · simpa [rules_loop, hrt, hfw, hp] using ht
    · cases hfire : fw.isEmpty && rw2 == workspace
      · simpa [rules_loop, hrt, hfire, hp] using ht
      · rcases hres : ex.runCommand cmd with e | u <;>
          rcases tres with te | touts <;>
            simpa [rules_loop, hrt, hfire, execute_empty_workspace_command,
              hres, hp, onlyExternal] using ht

/-- Prepending external-only events to a trace preserves the
all-externals-under-read-lock check while the lock is held. -/
theorem allExternalReadLocked_append (evs tr2 : List Event) (d : Nat)
    (h : onlyExternal evs = true) (hd : 0 < d)
    (h2 : allExternalReadLocked tr2 d = true) :
    allExternalReadLocked (evs ++ tr2) d = true := by
  induction evs with
  | nil => simpa
  | cons e es ih =>
    cases e with
    | externalExec s =>
      rw [onlyExternal, List.all_cons, Bool.and_eq_true] at h
      simp [allExternalReadLocked, hd]
      exact ih h.2
    | readAcquire => simp [onlyExternal, List.all_cons] at h
    | readRelease => simp [onlyExternal, List.all_cons] at h
    | writeAcquire => simp [onlyExternal, List.all_cons] at h
    | writeRelease => simp [onlyExternal, List.all_cons] at h

/-- C9 counterexample: an EvaluateRules request with a loaded config
performs an external window-manager query while the shared-state read lock
is held. -/
theorem c9_external_under_lock_counterexample :
    externalWhileReadLocked
      (handle_request exOk (fun _ => Except.ok []) (Except.ok [])
        (fun _ => none) ⟨[], some ⟨[]⟩, none⟩
        (Request.evaluateRules "1")).2.2 0 = true := rfl

/-- C9 (amended): the GetWindows and GetConfig handlers perform no external
command execution at all, but the EvaluateRules handler performs its fresh
workspace window query and every rule action or command execution while
holding the shared-state read lock — the lock is not released before
external execution. -/
theorem c9_lock_discipline (ex : Exec)
    (lww : String → Except GatewayError (List WindowInfo))
    (lw : Except GatewayError (List WindowInfo))
    (load : Option String → Option Config) (state : ServiceState)
    (workspace : String) :
    noExternal (handle_request ex lww lw load state Request.getWindows).2.2
        = true
    ∧ noExternal (handle_request ex lww lw load state Request.getConfig).2.2
        = true
    ∧ allExternalReadLocked
        (handle_request ex lww lw load state
          (Request.evaluateRules workspace)).2.2 0 = true := by
  refine ⟨?_, ?_, ?_⟩
  · simp [handle_request, noExternal]
  · cases hc : state.config <;> simp [handle_request, hc, noExternal]
  · cases hc : state.config with
    | none => simp [handle_request, hc, allExternalReadLocked]
    | some cfg =>
      cases hlw : lww workspace with
      | error e => simp [handle_request, hc, hlw, allExternalReadLocked]
      | ok fw =>
        rcases hrl : rules_loop ex workspace fw cfg.rules with ⟨res, evs⟩
        have honly : onlyExternal evs = true := by
          have := rules_loop_events_external ex workspace fw cfg.rules
          rw [hrl] at this; exact this
        simp [handle_request, hc, hlw, hrl, allExternalReadLocked]
        exact allExternalReadLocked_append evs [Event.readRelease] 1 honly
          Nat.zero_lt_one rfl

end AerospaceRules
